import Mathlib

/-!
Verification development for a multi-platform media downloader
(`src/base.py`, `src/url_parser.py`, `src/tiktok.py`, `src/instagram.py`,
`src/pinterest.py`, `src/file_handler.py`).

The Python source is shallowly embedded: each method becomes a total Lean
function.  Network responses and the local filesystem are passed explicitly:
an HTTP response is a record of status / payload size / body text, and the
filesystem is an association list from paths to file sizes.  JSON values
produced by the external `json` library are represented by the inductive
type `PyJson`; the library's `json.loads` itself is an external collaborator
and is passed in as an oracle `String -> Option PyJson` (`none` models a
`json.JSONDecodeError`).  Python runtime exceptions raised by attribute
access, indexing, `len`, or concatenation on dynamically typed values are
modelled by the `PyExc` type; the exact wording of CPython's exception
messages is represented by equivalent fixed strings (the control flow, which
is what the properties depend on, is exact).
-/

/-- Values delivered by the external `json.loads` collaborator
(dicts, lists, strings, numbers, booleans, `None`). -/
inductive PyJson where
  | null : PyJson
  | bool (b : Bool) : PyJson
  | num (n : Int) : PyJson
  | str (s : String) : PyJson
  | arr (elems : List PyJson) : PyJson
  | obj (fields : List (String × PyJson)) : PyJson

/-- Python truthiness of a value, as used by `if not video_data:`,
`if is_video:`, `x or y` and the like in the source. -/
def PyJson.truthy : PyJson → Bool
  | .null => false
  | .bool b => b
  | .num n => n != 0
  | .str s => !s.data.isEmpty
  | .arr l => !l.isEmpty
  | .obj l => !l.isEmpty

/-- Python type name of a value, used in exception messages. -/
def PyJson.pyType : PyJson → String
  | .null => "NoneType"
  | .bool _ => "bool"
  | .num _ => "int"
  | .str _ => "str"
  | .arr _ => "list"
  | .obj _ => "dict"

/-- Python runtime exceptions that the embedded code can raise on
dynamically typed JSON data; `str e` is modelled by `PyExc.str`. -/
inductive PyExc where
  | attrError (tyName : String) (attr : String)
  | typeError (msg : String)
  | indexError (msg : String)
  | keyError (msg : String)
deriving DecidableEq

/-- Model of Python's `str(e)` on the exceptions above. -/
def PyExc.str : PyExc → String
  | .attrError ty attr => "'" ++ ty ++ "' object has no attribute '" ++ attr ++ "'"
  | .typeError m => m
  | .indexError m => m
  | .keyError m => m

/-- First-match lookup in the field list of a JSON object (Python dicts
produced by `json.loads` have unique keys, so first match is exact). -/
def jlookup : List (String × PyJson) → String → Option PyJson
  | [], _ => none
  | (k, v) :: rest, key => if k = key then some v else jlookup rest key

/-- Python `x.get(key, dflt)`: returns the entry or the default on a dict,
raises `AttributeError` on any non-dict value. -/
def PyJson.getD (j : PyJson) (key : String) (dflt : PyJson) : Except PyExc PyJson :=
  match j with
  | .obj fields => .ok ((jlookup fields key).getD dflt)
  | _ => .error (.attrError j.pyType "get")

/-- Python `x.get(key)` (default `None`). -/
def PyJson.getOpt (j : PyJson) (key : String) : Except PyExc PyJson :=
  j.getD key .null

/-- Python `x[0]` on a JSON value (list indexing, string indexing, or the
corresponding runtime error). -/
def PyJson.index0 : PyJson → Except PyExc PyJson
  | .arr (x :: _) => .ok x
  | .arr [] => .error (.indexError "list index out of range")
  | .str s =>
    match s.data with
    | c :: _ => .ok (.str (String.mk [c]))
    | [] => .error (.indexError "string index out of range")
  | .obj _ => .error (.keyError "0")
  | j => .error (.typeError ("'" ++ j.pyType ++ "' object is not subscriptable"))

/-- Python `len(x)` on a JSON value. -/
def PyJson.pyLen : PyJson → Except PyExc Nat
  | .str s => .ok s.data.length
  | .arr l => .ok l.length
  | .obj l => .ok l.length
  | j => .error (.typeError ("object of type '" ++ j.pyType ++ "' has no len()"))

/-- The truncation expression `s[:100] + '...' if len(s) > 100 else s`
shared by `instagram.py` (caption) and `pinterest.py` (title). -/
def truncate100 (s : String) : String :=
  if s.data.length > 100 then String.mk (s.data.take 100) ++ "..." else s

/-- The same truncation expression applied to a dynamically typed Python
value (the caption read out of parsed JSON): `len` and `+` may raise. -/
def pyTruncate (j : PyJson) : Except PyExc PyJson := do
  let n ← j.pyLen
  if n > 100 then
    match j with
    | .str s => pure (.str (truncate100 s))
    | _ => .error (.typeError ("can only concatenate '" ++ j.pyType ++ "' values"))
  else
    pure j

/-- Leftmost-match driver for the regex models below: try a matcher at every
start position of the text, left to right, exactly as `re.search` does. -/
def scanFirst {α : Type} (f : List Char → Option α) : List Char → Option α
  | [] => f []
  | c :: s =>
    match f (c :: s) with
    | some a => some a
    | none => scanFirst f s

/-- Model of `re.search(lit + "(CLASS+)", s)` for a literal followed by one
capture group of a greedy nonempty character-class repetition: at a given
start the literal must match and at least one class character must follow;
the capture is the maximal class run. -/
def matchLitClassAt (lit : List Char) (p : Char → Bool) (s : List Char) : Option (List Char) :=
  if lit <+: s then
    let cap := (s.drop lit.length).takeWhile p
    if cap = [] then none else some cap
  else none

/-- Leftmost search for `lit` followed by a nonempty class run. -/
def searchLitClass (lit : List Char) (p : Char → Bool) (s : List Char) : Option (List Char) :=
  scanFirst (matchLitClassAt lit p) s

/-- Character class `[A-Za-z0-9_-]` of the shortcode regexes. -/
def shortcodeChar (c : Char) : Bool :=
  c.isAlphanum || c = '_' || c = '-'

/-- Python `s.replace(pat, rep)` on character lists: scan left to right,
replacing each non-overlapping occurrence of `pat` (the `pat = []` guard
only rules out Python's empty-pattern corner case, which never occurs in
the source: the patterns used are `"\\u0026"` and `"\\/"`).  The `fuel`
argument only makes the recursion structural; one unit of fuel is spent
per character of the scanned text, so `fuel = s.length` (as supplied by
`replaceAll`) always suffices and the `fuel = 0` arm is never reached
from the wrapper. -/
def replaceAllF (p r : List Char) : Nat → List Char → List Char
  | _, [] => []
  | 0, _ :: _ => []
  | fuel + 1, c :: s =>
    if p ≠ [] ∧ p <+: (c :: s) then r ++ replaceAllF p r fuel (s.drop (p.length - 1))
    else c :: replaceAllF p r fuel s

/-- Python `s.replace(pat, rep)` on character lists (fuelled wrapper). -/
def replaceAll (p r s : List Char) : List Char :=
  replaceAllF p r s.length s

/-- Python `s.replace(pat, rep)` on strings. -/
def pyReplace (s pat rep : String) : String :=
  String.mk (replaceAll pat.data rep.data s.data)

/-- Python `s.lower()`, restricted to its ASCII action (every character the
source's domain patterns contain is ASCII). -/
def pyLower (s : String) : String :=
  String.mk (s.data.map Char.toLower)

/-- Python `needle in hay` substring test. -/
def strContains (hay needle : String) : Bool :=
  decide (needle.data <:+: hay.data)

namespace URLParser

/-- `URLParser.extract_platform` from `src/url_parser.py`: ordered substring
tests of the lowercased URL against fixed per-platform domain lists. -/
def extract_platform (url : String) : Option String :=
  let url_lower := pyLower url
  if ["youtube.com", "youtu.be"].any (fun d => strContains url_lower d) then
    some "youtube"
  else if ["tiktok.com", "vm.tiktok.com", "vt.tiktok.com"].any (fun d => strContains url_lower d) then
    some "tiktok"
  else if ["instagram.com", "instagr.am"].any (fun d => strContains url_lower d) then
    some "instagram"
  else if ["pinterest.com", "pinterest.", "pin.it"].any (fun d => strContains url_lower d) then
    some "pinterest"
  else
    none

/-- `URLParser.normalize_url` from `src/url_parser.py`:
`url.split('?')[0].split('#')[0]`, then force the https scheme. -/
def normalize_url (url : String) : String :=
  let u1 := String.mk (url.data.takeWhile (fun c => c ≠ '?'))
  let u2 := String.mk (u1.data.takeWhile (fun c => c ≠ '#'))
  if "http://".data <+: u2.data then
    "https://" ++ String.mk (u2.data.drop 7)
  else if "https://".data <+: u2.data then
    u2
  else
    "https://" ++ u2

end URLParser

/-- The local filesystem, as the downloader observes it: an association
list from absolute paths to file sizes (bytes). -/
abbrev FS := List (String × Nat)

/-- `os.path.getsize` / `os.path.exists` style lookup. -/
def fsLookup : FS → String → Option Nat
  | [], _ => none
  | (p, n) :: rest, q => if p = q then some n else fsLookup rest q

/-- `os.remove` guarded by `os.path.exists` (a no-op when absent), which is
exactly how every deletion in the source is written. -/
def fsErase (fs : FS) (p : String) : FS :=
  fs.filter (fun e => e.1 ≠ p)

/-- `open(path, 'wb')` followed by a complete streamed write: the previous
file at the path (if any) is truncated away and replaced. -/
def fsWrite (fs : FS) (p : String) (n : Nat) : FS :=
  (p, n) :: fsErase fs p

/-- Modelled from the spec: the configuration surface consumed by the core
(`config.py` is an excluded collaborator, not under `src/`): the download
directory path and the distinct video/photo size ceilings in bytes. -/
structure Config where
  DOWNLOAD_DIR : String
  MAX_VIDEO_SIZE : Nat
  MAX_PHOTO_SIZE : Nat
deriving DecidableEq

/-- The observable outcome of the single `session.get` performed by
`download_file` for a media URL: HTTP status, payload size in bytes, and
whether some exception interrupts the streamed write (`some msg` carries
the Python message of that exception). -/
structure FileResp where
  status : Nat
  size : Nat
  writeExc : Option String
deriving DecidableEq

namespace BaseDownloader

/-- `BaseDownloader.download_file` from `src/base.py`.  On HTTP 200 the body
is streamed to `download_dir/filename`; a non-200 status raises
`Exception(f"HTTP {status}: ...")`, and any exception (HTTP failure or a
failure during the write) is re-raised after removing whatever file exists
at the target path.  The returned pair is (result, filesystem after the
call); `Except.error` models the raised exception reaching the caller. -/
def download_file (cfg : Config) (fs : FS) (resp : FileResp) (filename : String) :
    Except String String × FS :=
  let file_path := cfg.DOWNLOAD_DIR ++ "/" ++ filename
  if resp.status = 200 then
    match resp.writeExc with
    | some msg => (.error msg, fsErase fs file_path)
    | none => (.ok file_path, fsWrite fs file_path resp.size)
  else
    (.error ("HTTP " ++ toString resp.status ++ ": Failed to download file"), fsErase fs file_path)

/-- `BaseDownloader.cleanup_file`: remove the file if it exists, ignoring
errors. -/
def cleanup_file (fs : FS) (file_path : String) : FS :=
  fsErase fs file_path

end BaseDownloader

/-- Round-half-even division of `n` by `d` (the rounding Python applies
when formatting an exactly representable float). -/
def roundHalfEvenDiv (n d : Nat) : Nat :=
  let q := n / d
  let r := n % d
  if 2 * r < d then q
  else if 2 * r > d then q + 1
  else if q % 2 = 0 then q else q + 1

/-- The f-string expression `f"{file_size / 1024 / 1024:.1f}"` of the
size-limit checks.  For any realistic size (below 2^53 bytes) the Python
float `file_size / 1024 / 1024` is exactly `size / 2^20` (two exact
divisions by powers of two), and `:.1f` renders its nearest multiple of
one tenth, ties to even — i.e. the half-even rounding of `size * 10 / 2^20`
tenths, printed with one decimal digit. -/
def fmtMB (size : Nat) : String :=
  let t := roundHalfEvenDiv (size * 10) (1024 * 1024)
  toString (t / 10) ++ "." ++ toString (t % 10)

/-- The uniform result envelope (`Dict[str, Any]`) returned by every
platform `download` method.  Keys that a returned dict does not populate
are `none`; `title` holds a dynamically typed value read out of JSON. -/
structure DownloadResult where
  success : Bool
  file_path : Option String := none
  media_type : Option String := none
  title : Option PyJson := none
  error : Option String := none

/-- Lazy body capture of `(.*?)</script>`: the shortest run of characters up
to a following `</script>` literal.  Without `re.DOTALL`, `.` does not match
a newline, so a newline before the closing literal makes the match fail. -/
def lazyToCloseScript : List Char → Option (List Char)
  | [] => none
  | c :: rest =>
    if "</script>".data <+: (c :: rest) then some []
    else if c = '\n' then none
    else (lazyToCloseScript rest).map (fun t => c :: t)

/-- Match of `<script id="SIGI_STATE"[^>]*>(.*?)</script>` anchored at the
current position: the literal, a maximal run of non-`>` characters, a `>`,
then the lazy body capture. -/
def matchSigiAt (s : List Char) : Option (List Char) :=
  if "<script id=\"SIGI_STATE\"".data <+: s then
    let rest := s.drop "<script id=\"SIGI_STATE\"".data.length
    let attrs := rest.takeWhile (fun c => c ≠ '>')
    if attrs.length < rest.length then
      lazyToCloseScript (rest.drop (attrs.length + 1))
    else none
  else none

/-- `re.search(r'<script id="SIGI_STATE"[^>]*>(.*?)</script>', content)`:
group 1 of the leftmost match. -/
def extractSigi (content : String) : Option String :=
  (scanFirst matchSigiAt content.data).map String.mk

/-- `TikTokDownloader._get_video_info`'s result dict: on success it carries
`video_id`, `download_url` and `title`; on failure only an error message. -/
inductive VideoInfo where
  | ok (video_id : String) (download_url : PyJson) (title : PyJson)
  | err (error : String)

/-- The observable environment of one TikTok request: the outcome of the
redirect-resolving GET (`some msg` in `redirectExc` models a raised network
exception), the page GET, and the media-file GET performed by
`download_file`. -/
structure TikTokEnv where
  redirectExc : Option String
  finalUrl : String
  pageExc : Option String
  pageStatus : Nat
  pageContent : String
  fileResp : FileResp

namespace TikTokDownloader

/-- `URLParser.extract_tiktok_video_id` / the inline
`re.search(r'/video/(\d+)', final_url)` of `src/tiktok.py`. -/
def extract_video_id (url : String) : Option String :=
  (searchLitClass "/video/".data Char.isDigit url.data).map String.mk

/-- The body of `_get_video_info` between `json.loads` succeeding and the
final return: dynamic attribute accesses on the parsed blob, each of which
can raise (`Except.error`) on ill-typed data. -/
def parse_item (video_id : String) (data : PyJson) : Except PyExc VideoInfo := do
  let itemModule ← data.getD "ItemModule" (PyJson.obj [])
  let video_data ← itemModule.getD video_id (PyJson.obj [])
  if !video_data.truthy then
    return VideoInfo.err "Video data not found"
  let video_obj ← video_data.getD "video" (PyJson.obj [])
  let da ← video_obj.getOpt "downloadAddr"
  let download_url ← if da.truthy then pure da else video_obj.getOpt "playAddr"
  if !download_url.truthy then
    return VideoInfo.err "Could not find video download URL"
  let title ← video_data.getD "desc" (PyJson.str "TikTok Video")
  return VideoInfo.ok video_id download_url title

/-- `TikTokDownloader._get_video_info` from `src/tiktok.py`: resolve
redirects, extract the numeric video id, fetch the page, locate the
`SIGI_STATE` script blob, parse it as JSON, and read the item's
`downloadAddr`/`playAddr`.  Every failure (including any raised exception,
absorbed by the enclosing `try/except`) is a returned `err` dict. -/
def get_video_info (jsonOf : String → Option PyJson) (env : TikTokEnv) : VideoInfo :=
  match env.redirectExc with
  | some m => .err ("Failed to get video info: " ++ m)
  | none =>
    match extract_video_id env.finalUrl with
    | none => .err "Could not extract video ID from URL"
    | some video_id =>
      match env.pageExc with
      | some m => .err ("Failed to get video info: " ++ m)
      | none =>
        if env.pageStatus ≠ 200 then
          .err ("Failed to access TikTok page: HTTP " ++ toString env.pageStatus)
        else
          match extractSigi env.pageContent with
          | none => .err "Could not find video data in page"
          | some blob =>
            match jsonOf blob with
            | none => .err "Failed to parse video data"
            | some data =>
              match parse_item video_id data with
              | .ok info => info
              | .error e => .err ("Failed to get video info: " ++ PyExc.str e)

/-- `TikTokDownloader.download` from `src/tiktok.py`: resolve, download the
file, enforce `Config.MAX_VIDEO_SIZE`, and wrap everything into the uniform
result envelope.  Returns the envelope plus the filesystem after the call. -/
def download (cfg : Config) (jsonOf : String → Option PyJson) (env : TikTokEnv) (fs : FS) :
    DownloadResult × FS :=
  match get_video_info jsonOf env with
  | .err m => ({ success := false, error := some m }, fs)
  | .ok video_id _download_url title =>
    let filename := "tiktok_" ++ video_id ++ ".mp4"
    match BaseDownloader.download_file cfg fs env.fileResp filename with
    | (.error e, fs') =>
      ({ success := false, error := some ("TikTok download failed: " ++ e) }, fs')
    | (.ok file_path, fs') =>
      let file_size := (fsLookup fs' file_path).getD 0
      if file_size > cfg.MAX_VIDEO_SIZE then
        ({ success := false,
           error := some ("File too large (" ++ fmtMB file_size ++ "MB)") },
         BaseDownloader.cleanup_file fs' file_path)
      else
        ({ success := true, file_path := some file_path, media_type := some "video",
           title := some title, error := none }, fs')

end TikTokDownloader

/-- Lazy capture of `{.*?})` then `;`: the shortest run of characters up to
a following `});` (no newline may intervene, since `.` does not match one
without `re.DOTALL`). -/
def lazyToBraceClose : List Char → Option (List Char)
  | [] => none
  | c :: rest =>
    if "\x7d);".data <+: (c :: rest) then some []
    else if c = '\n' then none
    else (lazyToBraceClose rest).map (fun t => c :: t)

/-- Match of `window\.__additionalDataLoaded\([^,]+,({.*?})\);` anchored at
the current position.  `[^,]+` greedily takes the nonempty run up to the
first comma (backtracking cannot move the comma, since the class excludes
it); the group then requires an immediate `{` and captures lazily up to the
closing `});`. -/
def matchLoaderAt (s : List Char) : Option (List Char) :=
  if "window.__additionalDataLoaded(".data <+: s then
    let rest := s.drop "window.__additionalDataLoaded(".data.length
    let arg1 := rest.takeWhile (fun c => c ≠ ',')
    if arg1 = [] then none
    else if arg1.length < rest.length then
      match rest.drop (arg1.length + 1) with
      | '{' :: body => (lazyToBraceClose body).map (fun t => '{' :: (t ++ ['}']))
      | _ => none
    else none
  else none

/-- `re.search(r'window\.__additionalDataLoaded\([^,]+,({.*?})\);', content)`:
group 1 (the JSON blob, braces included) of the leftmost match. -/
def searchLoader (content : String) : Option String :=
  (scanFirst matchLoaderAt content.data).map String.mk

/-- `([^"]+)"`: the maximal nonempty run of non-quote characters, which must
be terminated by a closing quote. -/
def urlCapture (s : List Char) : Option (List Char) :=
  let u := s.takeWhile (fun c => c ≠ '"')
  if u = [] then none
  else if u.length < s.length then some u else none

/-- Match of `TAG[^}]+KEY([^"]+)"` anchored at the current position (the
shape of both the `"GraphImage"` and `"GraphVideo"` fallback regexes of
`src/instagram.py`).  The greedy `[^}]+` backtracks from the longest
brace-free run, so the chosen occurrence of `KEY` is the last one inside
that run after which the capture also matches. -/
def matchTaggedAt (tagLit keyLit : List Char) (s : List Char) : Option (List Char) :=
  if tagLit <+: s then
    let rest := s.drop tagLit.length
    let run := rest.takeWhile (fun c => c ≠ '}')
    let js := (List.range (run.length + 1)).filter (fun j =>
      decide (1 ≤ j) && decide (keyLit <+: rest.drop j) &&
        (urlCapture (rest.drop (j + keyLit.length))).isSome)
    match js.getLast? with
    | some j => urlCapture (rest.drop (j + keyLit.length))
    | none => none
  else none

/-- Leftmost search for the tagged fallback patterns of `src/instagram.py`. -/
def searchTagged (tag key : String) (content : String) : Option String :=
  (scanFirst (matchTaggedAt tag.data key.data) content.data).map String.mk

/-- `InstagramDownloader._get_media_info`'s result dict: `media_id`,
`media_url`, `is_video` and `caption` on success (`media_url` and
`is_video` are dynamically typed when they come out of parsed JSON), or an
error message. -/
inductive MediaInfo where
  | ok (media_id : String) (media_url : PyJson) (is_video : PyJson) (caption : PyJson)
  | err (error : String)

/-- The observable outcome of one page GET: a possible raised network
exception, the HTTP status, and the body text. -/
structure PageEnv where
  netExc : Option String
  status : Nat
  content : String

namespace InstagramDownloader

/-- The shortcode extraction of `_get_media_info`:
`re.search(r'/p/([A-Za-z0-9_-]+)', url)`, falling back to `/reel/`. -/
def extract_shortcode (url : String) : Option String :=
  match searchLitClass "/p/".data shortcodeChar url.data with
  | some c => some (String.mk c)
  | none => (searchLitClass "/reel/".data shortcodeChar url.data).map String.mk

/-- The body of `_get_media_info` between `json.loads` succeeding and the
final return: reads `graphql.shortcode_media`, `is_video`, the media URL
and the first caption edge, truncating the caption to 100 characters. -/
def parse_media (shortcode : String) (data : PyJson) : Except PyExc MediaInfo := do
  let graphql ← data.getD "graphql" (PyJson.obj [])
  let media_data ← graphql.getD "shortcode_media" (PyJson.obj [])
  if !media_data.truthy then
    return MediaInfo.err "Media data not found in response"
  let is_video ← media_data.getD "is_video" (PyJson.bool false)
  let media_url ←
    if is_video.truthy then media_data.getOpt "video_url"
    else media_data.getOpt "display_url"
  if !media_url.truthy then
    return MediaInfo.err "Could not find media URL"
  let edge ← media_data.getD "edge_media_to_caption" (PyJson.obj [])
  let edges ← edge.getD "edges" (PyJson.arr [])
  let caption ←
    if edges.truthy then do
      let e0 ← edges.index0
      let node ← e0.getD "node" (PyJson.obj [])
      node.getD "text" (PyJson.str "")
    else
      pure (PyJson.str "")
  let caption ← pyTruncate caption
  return MediaInfo.ok shortcode media_url is_video caption

/-- `InstagramDownloader._get_media_info` from `src/instagram.py`: extract
the shortcode, fetch the embed page, then try in order (a) the
`window.__additionalDataLoaded` JSON blob, (b) the raw `"GraphImage"`
regex, (c) the raw `"GraphVideo"` regex; the URLs captured by (b) and (c)
have their `&` escapes replaced by `&`.  Every failure (including any
raised exception, absorbed by the enclosing `try/except`) is a returned
`err` dict. -/
def get_media_info (jsonOf : String → Option PyJson) (url : String) (env : PageEnv) : MediaInfo :=
  match extract_shortcode url with
  | none => .err "Could not extract media shortcode from URL"
  | some shortcode =>
    match env.netExc with
    | some m => .err ("Failed to get media info: " ++ m)
    | none =>
      if env.status ≠ 200 then
        .err ("Failed to access Instagram embed: HTTP " ++ toString env.status)
      else
        match searchLoader env.content with
        | some blob =>
          match jsonOf blob with
          | none => .err "Failed to parse media data"
          | some data =>
            match parse_media shortcode data with
            | .ok mi => mi
            | .error e => .err ("Failed to get media info: " ++ PyExc.str e)
        | none =>
          match searchTagged "\"GraphImage\"" "display_url\":\"" env.content with
          | some u =>
            .ok shortcode (PyJson.str (pyReplace u "\\u0026" "&")) (PyJson.bool false)
              (PyJson.str "Instagram Photo")
          | none =>
            match searchTagged "\"GraphVideo\"" "video_url\":\"" env.content with
            | some u =>
              .ok shortcode (PyJson.str (pyReplace u "\\u0026" "&")) (PyJson.bool true)
                (PyJson.str "Instagram Video")
            | none => .err "Could not find media data in embed page"

/-- `InstagramDownloader.download` from `src/instagram.py`: resolve, pick
the filename / media type / ceiling by `is_video`, download the file,
enforce the ceiling, and wrap everything into the uniform result
envelope.  Returns the envelope plus the filesystem after the call. -/
def download (cfg : Config) (jsonOf : String → Option PyJson) (url : String)
    (page : PageEnv) (fileResp : FileResp) (fs : FS) : DownloadResult × FS :=
  match get_media_info jsonOf url page with
  | .err m => ({ success := false, error := some m }, fs)
  | .ok media_id _media_url is_video caption =>
    let filename :=
      if is_video.truthy then "instagram_" ++ media_id ++ ".mp4"
      else "instagram_" ++ media_id ++ ".jpg"
    let media_type := if is_video.truthy then "video" else "photo"
    let size_limit := if is_video.truthy then cfg.MAX_VIDEO_SIZE else cfg.MAX_PHOTO_SIZE
    match BaseDownloader.download_file cfg fs fileResp filename with
    | (.error e, fs') =>
      ({ success := false, error := some ("Instagram download failed: " ++ e) }, fs')
    | (.ok file_path, fs') =>
      let file_size := (fsLookup fs' file_path).getD 0
      if file_size > size_limit then
        ({ success := false,
           error := some ("File too large (" ++ fmtMB file_size ++ "MB)") },
         BaseDownloader.cleanup_file fs' file_path)
      else
        ({ success := true, file_path := some file_path, media_type := some media_type,
           title := some caption, error := none }, fs')

end InstagramDownloader

/-- One match of `<script[^>]*>([^<]*)</script>` anchored at the current
position: the literal, a maximal non-`>` run, `>`, a maximal non-`<` body
capture, then the closing literal.  Returns the body and the total match
length (so the `findall` scan can resume after the match). -/
def matchScriptAt (s : List Char) : Option (List Char × Nat) :=
  if "<script".data <+: s then
    let rest := s.drop 7
    let attrs := rest.takeWhile (fun c => c ≠ '>')
    if attrs.length < rest.length then
      let body := (rest.drop (attrs.length + 1)).takeWhile (fun c => c ≠ '<')
      if "</script>".data <+: rest.drop (attrs.length + 1 + body.length) then
        some (body, 7 + attrs.length + 1 + body.length + 9)
      else none
    else none
  else none

/-- `re.findall(r'<script[^>]*>([^<]*)</script>', content, re.DOTALL)`: all
script bodies in order; after each match the scan resumes past it.  As in
`replaceAllF`, the `fuel` argument only makes the recursion structural;
at least one unit of fuel is spent per character, so `fuel = s.length`
(as supplied by `scanScripts`) always suffices. -/
def scanScriptsF : Nat → List Char → List (List Char)
  | _, [] => []
  | 0, _ :: _ => []
  | fuel + 1, c :: s =>
    match matchScriptAt (c :: s) with
    | some (body, k) => body :: scanScriptsF fuel (s.drop (k - 1))
    | none => scanScriptsF fuel s

/-- The `re.findall` script scan (fuelled wrapper). -/
def scanScripts (l : List Char) : List (List Char) :=
  scanScriptsF l.length l

/-- The pin-marker test `'pinterestapp:pins' in script or '"Pin"' in script`. -/
def pinMarker (script : List Char) : Bool :=
  decide ("pinterestapp:pins".data <:+: script) || decide ("\"Pin\"".data <:+: script)

/-- On the reversed prefix before a position: is the nearest brace character
an opening `{` (so the stretch back to it is brace-free)? -/
def lastBraceOpen : List Char → Bool
  | [] => false
  | c :: rest => if c = '{' then true else if c = '}' then false else lastBraceOpen rest

/-- Scan for `re.search(r'\{[^}]*"images"[^}]*\}', script)` viability: some
occurrence of `"images"` preceded by a `{` with no `}` between, and
followed by some `}`.  `seen` is the reversed prefix before the current
position. -/
def imagesGateAux : List Char → List Char → Bool
  | _, [] => false
  | seen, c :: s =>
    if "\"images\"".data <+: (c :: s) ∧ lastBraceOpen seen ∧ '}' ∈ (c :: s).drop 8 then true
    else imagesGateAux (c :: seen) s

/-- Whether `re.search(r'\{[^}]*"images"[^}]*\}', script)` matches. -/
def imagesGate (script : List Char) : Bool :=
  imagesGateAux [] script

/-- The characters matched by `\s` (ASCII part). -/
def wsChar (c : Char) : Bool :=
  c = ' ' || c = '\t' || c = '\n' || c = '\r' || c = '\x0b' || c = '\x0c'

/-- Match of `KEY\s*"(RUN)"` anchored at the current position, where the
captured run is the maximal stretch of non-quote characters and a closing
quote must follow (shared shape of the `"url":` and `"title":` regexes of
`src/pinterest.py`). -/
def quotedAfterKey (keyLit : List Char) (s : List Char) : Option (List Char) :=
  if keyLit <+: s then
    match (s.drop keyLit.length).dropWhile wsChar with
    | '"' :: r =>
      let u := r.takeWhile (fun c => c ≠ '"')
      if u.length < r.length then some u else none
    | _ => none
  else none

/-- Whether the quoted run satisfies `[^"]+\.(?:jpg|jpeg|png|mp4|webm)[^"]*`:
a dot-extension occurrence at some position at least 1 inside the run. -/
def extOk (u : List Char) : Bool :=
  (List.range u.length).any (fun i =>
    decide (1 ≤ i) && [".jpg", ".jpeg", ".png", ".mp4", ".webm"].any
      (fun e => decide (e.data <+: u.drop i)))

/-- Match of
`"url":\s*"([^"]+\.(?:jpg|jpeg|png|mp4|webm)[^"]*)"` anchored here. -/
def matchUrlAt (s : List Char) : Option (List Char) :=
  match quotedAfterKey "\"url\":".data s with
  | some u => if u ≠ [] ∧ extOk u then some u else none
  | none => none

/-- Leftmost search for the media-URL regex in a script body. -/
def searchPinUrl (script : List Char) : Option (List Char) :=
  scanFirst matchUrlAt script

/-- Leftmost search for `"title":\s*"([^"]*)"` in a script body. -/
def searchPinTitle (script : List Char) : Option (List Char) :=
  scanFirst (quotedAfterKey "\"title\":".data) script

/-- One iteration of the `for script in script_matches` loop of
`_get_pin_info`: marker test, `"images"` JSON gate, media-URL regex with
`\/` unescaping, video detection by extension, and optional title capture
truncated to 100 characters. -/
def tryScript (script : List Char) : Option (String × Bool × String) :=
  if pinMarker script ∧ imagesGate script then
    match searchPinUrl script with
    | some u =>
      let media_url := pyReplace (String.mk u) "\\/" "/"
      let is_video := [".mp4", ".webm"].any (fun e => strContains (pyLower media_url) e)
      let title :=
        match searchPinTitle script with
        | some t => String.mk t
        | none => "Pinterest Media"
      some (media_url, is_video, truncate100 title)
    | none => none
  else none

/-- The script loop itself: first script whose strategy yields a URL. -/
def firstScriptHit : List (List Char) → Option (String × Bool × String)
  | [] => none
  | s :: rest =>
    match tryScript s with
    | some r => some r
    | none => firstScriptHit rest

/-- `re.search(r'<meta property="og:image" content="([^"]+)"', content)`:
the captured URL of the leftmost match. -/
def ogImage (content : List Char) : Option (List Char) :=
  scanFirst (fun s =>
    if "<meta property=\"og:image\" content=\"".data <+: s then
      let rest := s.drop "<meta property=\"og:image\" content=\"".data.length
      let u := rest.takeWhile (fun c => c ≠ '"')
      if u ≠ [] ∧ u.length < rest.length then some u else none
    else none) content

/-- `PinterestDownloader._get_pin_info`'s result dict. -/
inductive PinInfo where
  | ok (pin_id : String) (media_url : String) (is_video : Bool) (title : String)
  | err (error : String)

/-- The observable environment of one Pinterest request: the short-link
redirect resolution (only consulted when the URL contains `pin.it`) and
the pin-page GET. -/
structure PinterestEnv where
  resolveExc : Option String
  resolvedUrl : String
  netExc : Option String
  status : Nat
  content : String

namespace PinterestDownloader

/-- `re.search(r'/pin/(\d+)', url)` of `src/pinterest.py`. -/
def extract_pin_id (url : String) : Option String :=
  (searchLitClass "/pin/".data Char.isDigit url.data).map String.mk

/-- `PinterestDownloader._get_pin_info` from `src/pinterest.py`: resolve a
`pin.it` short link, extract the numeric pin id, fetch the page, scan the
inline scripts (marker token, `"images"` gate, media-URL regex, optional
title), and fall back to the `og:image` meta tag.  Every failure
(including any raised exception, absorbed by the enclosing `try/except`)
is a returned `err` dict. -/
def get_pin_info (env : PinterestEnv) (url : String) : PinInfo :=
  let resolved : Except String String :=
    if strContains url "pin.it" then
      match env.resolveExc with
      | some m => .error ("Failed to get pin info: " ++ m)
      | none => .ok env.resolvedUrl
    else .ok url
  match resolved with
  | .error m => .err m
  | .ok url2 =>
    match extract_pin_id url2 with
    | none => .err "Could not extract pin ID from URL"
    | some pin_id =>
      match env.netExc with
      | some m => .err ("Failed to get pin info: " ++ m)
      | none =>
        if env.status ≠ 200 then
          .err ("Failed to access Pinterest page: HTTP " ++ toString env.status)
        else
          match firstScriptHit (scanScripts env.content.data) with
          | some (media_url, is_video, title) => .ok pin_id media_url is_video title
          | none =>
            match ogImage env.content.data with
            | some u => .ok pin_id (String.mk u) false "Pinterest Image"
            | none => .err "Could not find media data in Pinterest page"

/-- `PinterestDownloader.download` from `src/pinterest.py`: resolve, pick
the filename extension / media type / ceiling, download the file, enforce
the ceiling, and wrap everything into the uniform result envelope. -/
def download (cfg : Config) (url : String) (env : PinterestEnv) (fileResp : FileResp)
    (fs : FS) : DownloadResult × FS :=
  match get_pin_info env url with
  | .err m => ({ success := false, error := some m }, fs)
  | .ok pin_id media_url is_video title =>
    let filename :=
      if is_video then "pinterest_" ++ pin_id ++ ".mp4"
      else
        let low := pyLower media_url
        let ext :=
          if strContains low ".jpg" || strContains low ".jpeg" then "jpg"
          else if strContains low ".png" then "png"
          else "jpg"
        "pinterest_" ++ pin_id ++ "." ++ ext
    let media_type := if is_video then "video" else "photo"
    let size_limit := if is_video then cfg.MAX_VIDEO_SIZE else cfg.MAX_PHOTO_SIZE
    match BaseDownloader.download_file cfg fs fileResp filename with
    | (.error e, fs') =>
      ({ success := false, error := some ("Pinterest download failed: " ++ e) }, fs')
    | (.ok file_path, fs') =>
      let file_size := (fsLookup fs' file_path).getD 0
      if file_size > size_limit then
        ({ success := false,
           error := some ("File too large (" ++ fmtMB file_size ++ "MB)") },
         BaseDownloader.cleanup_file fs' file_path)
      else
        ({ success := true, file_path := some file_path, media_type := some media_type,
           title := some (PyJson.str title), error := none }, fs')

end PinterestDownloader

/-- Well-formedness of the result envelope: exactly the populated-field
discipline the spec promises for `DownloadResult` (success implies
`file_path`/`media_type` populated and `error` empty; failure implies
`error` populated and `file_path`/`media_type` empty). -/
def resultWellFormed (res : DownloadResult) : Prop :=
  (res.success = true →
    res.file_path.isSome = true ∧ res.media_type.isSome = true ∧ res.error = none) ∧
  (res.success = false →
    res.error.isSome = true ∧ res.file_path = none ∧ res.media_type = none)

/-- Lookup after `fsErase`: the erased path reads as absent, all other
paths are untouched. -/
theorem fsLookup_fsErase (fs : FS) (q p : String) :
    fsLookup (fsErase fs q) p = if p = q then none else fsLookup fs p := by
  induction fs with
  | nil =>
    simp only [fsErase, List.filter_nil, fsLookup]
    split <;> rfl
  | cons e rest ih =>
    obtain ⟨ek, ev⟩ := e
    simp only [fsErase, List.filter_cons] at ih ⊢
    by_cases hek : ek = q <;> by_cases hpq : p = q <;> by_cases hep : ek = p <;>
      simp_all [fsLookup, fsErase]

/-- Lookup after `fsWrite`: the written path reads back its size, all
other paths are untouched. -/
theorem fsLookup_fsWrite (fs : FS) (q : String) (n : Nat) (p : String) :
    fsLookup (fsWrite fs q n) p = if p = q then some n else fsLookup fs p := by
  simp only [fsWrite, fsLookup, fsLookup_fsErase]
  by_cases hpq : p = q
  · subst hpq; simp
  · simp [hpq, Ne.symm hpq]

/-- Reading back the just-written path. -/
theorem fsLookup_fsWrite_self (fs : FS) (q : String) (n : Nat) :
    fsLookup (fsWrite fs q n) q = some n := by
  simp [fsLookup_fsWrite]

/-- The base case of `jlookup`, as a rewrite rule. -/
theorem jlookup_nil (k : String) : jlookup [] k = none := rfl

/-- An occurrence of a nonempty word inside `r ++ t` either touches a
character of `r` or lies entirely inside `t`. -/
theorem infix_append_left_cases {α : Type} [DecidableEq α] (r : List α) :
    ∀ (t q : List α), q ≠ [] → q <:+: r ++ t → (∃ c, c ∈ r ∧ c ∈ q) ∨ q <:+: t := by
  induction r with
  | nil => intro t q _ h; exact Or.inr (by simpa using h)
  | cons a r' ih =>
    intro t q hq h
    rw [List.cons_append] at h
    rcases List.infix_cons_iff.mp h with hpre | hinf
    · cases q with
      | nil => exact absurd rfl hq
      | cons b q' =>
        rcases List.cons_prefix_cons.mp hpre with ⟨rfl, _⟩
        exact Or.inl ⟨b, List.mem_cons_self _ _, List.mem_cons_self _ _⟩
    · rcases ih t q hq hinf with ⟨c, hc1, hc2⟩ | h2
      · exact Or.inl ⟨c, List.mem_cons_of_mem _ hc1, hc2⟩
      · exact Or.inr h2

/-- A prefix of a replacement result that contains no character of the
replacement string is a prefix of the original text. -/
theorem prefix_of_replaceAllF (p r : List Char) (hr : r ≠ []) :
    ∀ (q : List Char) (f : Nat) (s : List Char), (∀ c ∈ r, c ∉ q) →
      q <+: replaceAllF p r f s → q <+: s := by
  intro q
  induction q with
  | nil => intro f s _ _; exact List.nil_prefix
  | cons a q' ih =>
    intro f s hq h
    cases s with
    | nil =>
      simp only [replaceAllF] at h
      exact absurd (List.prefix_nil.mp h) (by simp)
    | cons c s' =>
      cases f with
      | zero =>
        simp only [replaceAllF] at h
        exact absurd (List.prefix_nil.mp h) (by simp)
      | succ f' =>
        simp only [replaceAllF] at h
        split at h
        · cases r with
          | nil => exact absurd rfl hr
          | cons b r'' =>
            rw [List.cons_append] at h
            rcases List.cons_prefix_cons.mp h with ⟨rfl, _⟩
            exact absurd (List.mem_cons_self a q') (hq a (List.mem_cons_self a r''))
        · rcases List.cons_prefix_cons.mp h with ⟨rfl, hq'⟩
          have := ih f' s' (fun c hcr hcq => hq c hcr (List.mem_cons_of_mem _ hcq)) hq'
          exact List.cons_prefix_cons.mpr ⟨rfl, this⟩

/-- After replacing every occurrence of a nonempty pattern `p` by a
replacement sharing no character with `p`, no occurrence of `p` remains. -/
theorem not_infix_replaceAllF (p r : List Char) (hp : p ≠ []) (hr : r ≠ [])
    (hd : ∀ c ∈ r, c ∉ p) :
    ∀ (f : Nat) (s : List Char), ¬ p <:+: replaceAllF p r f s := by
  intro f
  induction f with
  | zero =>
    intro s h
    cases s <;> simp only [replaceAllF] at h <;> exact hp (List.eq_nil_of_infix_nil h)
  | succ f' ih =>
    intro s h
    cases s with
    | nil =>
      simp only [replaceAllF] at h
      exact hp (List.eq_nil_of_infix_nil h)
    | cons c s' =>
      simp only [replaceAllF] at h
      split at h
      · rcases infix_append_left_cases r _ p hp h with ⟨d, hdr, hdp⟩ | h2
        · exact hd d hdr hdp
        · exact ih _ h2
      · rename_i hcond
        rcases List.infix_cons_iff.mp h with hpre | hinf
        · cases p with
          | nil => exact hp rfl
          | cons a p' =>
            rcases List.cons_prefix_cons.mp hpre with ⟨rfl, hp'⟩
            have hps : p' <+: s' := prefix_of_replaceAllF _ r hr p' f' s'
              (fun d hdr hdq => hd d hdr (List.mem_cons_of_mem _ hdq)) hp'
            exact hcond ⟨by simp, List.cons_prefix_cons.mpr ⟨rfl, hps⟩⟩
        · exact ih _ hinf

/-- Unescaping `&` to `&` leaves no literal `&` behind: the
pattern is nonempty and `&` does not occur in it. -/
theorem no_u0026_in_unescaped (u : String) :
    ¬ ("\\u0026".data <:+: (pyReplace u "\\u0026" "&").data) :=
  not_infix_replaceAllF "\\u0026".data "&".data (by decide) (by decide) (by decide)
    u.data.length u.data

/-- The generic-exception message of `_get_media_info` can never collide
with its JSON parse-failure message (the prefixes differ at character 11). -/
theorem failed_info_ne_parse (m : String) :
    "Failed to get media info: " ++ m ≠ "Failed to parse media data" := by
  intro h
  have hd : "Failed to get media info: ".data ++ m.data = "Failed to parse media data".data :=
    congrArg String.data h
  have h11 := congrArg (List.take 11) hd
  rw [List.take_append_of_le_length (by decide)] at h11
  exact absurd h11 (by decide)

/-- The only dicts `parse_media` can return without raising: the success
dict or one of its two named failure dicts. -/
theorem parse_media_ok_shape (sc : String) (data : PyJson) (mi : MediaInfo)
    (h : InstagramDownloader.parse_media sc data = .ok mi) :
    (∃ u v c, mi = .ok sc u v c) ∨ mi = .err "Media data not found in response" ∨
      mi = .err "Could not find media URL" := by
  simp only [InstagramDownloader.parse_media, bind, Except.bind, pure, Except.pure] at h
  repeat' split at h
  all_goals try simp_all
  all_goals exact Or.inl ⟨_, _, _, h.symm⟩

/-- The TikTok result envelope is never partially populated. -/
theorem tiktok_wf (cfg : Config) (jsonOf : String → Option PyJson) (env : TikTokEnv) (fs : FS) :
    resultWellFormed (TikTokDownloader.download cfg jsonOf env fs).1 := by
  unfold TikTokDownloader.download resultWellFormed
  cases h : TikTokDownloader.get_video_info jsonOf env with
  | err m => simp
  | ok vid du ti =>
    dsimp only
    rcases hdf : BaseDownloader.download_file cfg fs env.fileResp ("tiktok_" ++ vid ++ ".mp4")
      with ⟨r, fs'⟩
    cases r with
    | error e => simp
    | ok fp =>
      dsimp only
      repeat' split
      all_goals simp

/-- The Instagram result envelope is never partially populated. -/
theorem instagram_wf (cfg : Config) (jsonOf : String → Option PyJson) (url : String)
    (page : PageEnv) (fr : FileResp) (fs : FS) :
    resultWellFormed (InstagramDownloader.download cfg jsonOf url page fr fs).1 := by
  unfold InstagramDownloader.download resultWellFormed
  cases h : InstagramDownloader.get_media_info jsonOf url page with
  | err m => simp
  | ok mid murl iv cap =>
    dsimp only
    rcases hdf : BaseDownloader.download_file cfg fs fr
        (if iv.truthy then "instagram_" ++ mid ++ ".mp4" else "instagram_" ++ mid ++ ".jpg")
      with ⟨r, fs'⟩
    cases r with
    | error e => simp
    | ok fp =>
      dsimp only
      repeat' split
      all_goals simp

/-- The Pinterest result envelope is never partially populated. -/
theorem pinterest_wf (cfg : Config) (url : String) (env : PinterestEnv) (fr : FileResp) (fs : FS) :
    resultWellFormed (PinterestDownloader.download cfg url env fr fs).1 := by
  unfold PinterestDownloader.download resultWellFormed
  cases h : PinterestDownloader.get_pin_info env url with
  | err m => simp
  | ok pid murl iv ti =>
    dsimp only
    rcases hdf : BaseDownloader.download_file cfg fs fr
        (if iv then "pinterest_" ++ pid ++ ".mp4"
         else
           "pinterest_" ++ pid ++ "." ++
             (if strContains (pyLower murl) ".jpg" || strContains (pyLower murl) ".jpeg" then "jpg"
              else if strContains (pyLower murl) ".png" then "png" else "jpg"))
      with ⟨r, fs'⟩
    cases r with
    | error e => simp
    | ok fp =>
      dsimp only
      repeat' split
      all_goals simp

/-- Claim C1: every failing Instagram download leaves no downloaded file
behind — any path in the returned filesystem is either untouched or absent —
and an oversized payload (strictly above the ceiling for its media type) is
rejected with no file at the target path and an error message reporting the
size in megabytes to one decimal place (`fmtMB`). -/
theorem C1_failure_leaves_no_file (cfg : Config) (jsonOf : String → Option PyJson)
    (url : String) (page : PageEnv) (fr : FileResp) (fs : FS) :
    ((InstagramDownloader.download cfg jsonOf url page fr fs).1.success = false →
      ∀ p, fsLookup (InstagramDownloader.download cfg jsonOf url page fr fs).2 p = fsLookup fs p ∨
        fsLookup (InstagramDownloader.download cfg jsonOf url page fr fs).2 p = none) ∧
    (∀ (mid : String) (murl iv cap : PyJson),
      InstagramDownloader.get_media_info jsonOf url page = .ok mid murl iv cap →
      fr.status = 200 → fr.writeExc = none →
      (if iv.truthy then cfg.MAX_VIDEO_SIZE else cfg.MAX_PHOTO_SIZE) < fr.size →
      (InstagramDownloader.download cfg jsonOf url page fr fs).1.success = false ∧
      (InstagramDownloader.download cfg jsonOf url page fr fs).1.error =
        some ("File too large (" ++ fmtMB fr.size ++ "MB)") ∧
      fsLookup (InstagramDownloader.download cfg jsonOf url page fr fs).2
        (cfg.DOWNLOAD_DIR ++ "/" ++
          (if iv.truthy then "instagram_" ++ mid ++ ".mp4" else "instagram_" ++ mid ++ ".jpg")) =
        none) := by
  obtain ⟨st, sz, we⟩ := fr
  constructor
  · unfold InstagramDownloader.download
    cases h : InstagramDownloader.get_media_info jsonOf url page with
    | err m => intro _ p; left; rfl
    | ok mid murl iv cap =>
      dsimp only
      by_cases hst : st = 200
      · subst hst
        rcases we with _ | m
        · simp only [BaseDownloader.download_file, if_true]
          try dsimp only
          cases hiv : iv.truthy <;>
            simp only [hiv, Bool.false_eq_true, if_true, if_false] <;> split
          · intro _ p
            by_cases hp : p = cfg.DOWNLOAD_DIR ++ "/" ++ ("instagram_" ++ mid ++ ".jpg") <;>
              simp [BaseDownloader.cleanup_file, fsLookup_fsErase, fsLookup_fsWrite, hp]
          · intro hfalse
            simp at hfalse
          · intro _ p
            by_cases hp : p = cfg.DOWNLOAD_DIR ++ "/" ++ ("instagram_" ++ mid ++ ".mp4") <;>
              simp [BaseDownloader.cleanup_file, fsLookup_fsErase, fsLookup_fsWrite, hp]
          · intro hfalse
            simp at hfalse
        · simp only [BaseDownloader.download_file, if_true]
          try dsimp only
          intro _ p
          by_cases hp : p = cfg.DOWNLOAD_DIR ++ "/" ++
              (if iv.truthy = true then "instagram_" ++ mid ++ ".mp4"
               else "instagram_" ++ mid ++ ".jpg") <;>
            simp [fsLookup_fsErase, hp]
      · simp only [BaseDownloader.download_file, if_neg hst]
        try dsimp only
        intro _ p
        by_cases hp : p = cfg.DOWNLOAD_DIR ++ "/" ++
            (if iv.truthy = true then "instagram_" ++ mid ++ ".mp4"
             else "instagram_" ++ mid ++ ".jpg") <;>
          simp [fsLookup_fsErase, hp]
  · intro mid murl iv cap h h200 hwe hsize
    try dsimp only at h200 hwe hsize ⊢
    subst h200
    subst hwe
    unfold InstagramDownloader.download
    rw [h]
    dsimp only
    simp only [BaseDownloader.download_file, if_true]
    try dsimp only
    rw [fsLookup_fsWrite_self, Option.getD_some, if_pos hsize]
    refine ⟨rfl, rfl, ?_⟩
    simp [BaseDownloader.cleanup_file, fsLookup_fsErase]

/-- Witness for C1: a concrete oversized photo (9 bytes against a 5-byte
photo ceiling) resolved through the GraphImage fallback is rejected, the
error message carries `fmtMB 9`, and the target path reads as absent. -/
theorem C1_witness :
    (InstagramDownloader.download ⟨"d", 99, 5⟩ (fun _ => none) "https://instagram.com/p/AB/"
        ⟨none, 200, "\"GraphImage\" x display_url\":\"http://u\""⟩ ⟨200, 9, none⟩ []).1.success =
        false ∧
    (InstagramDownloader.download ⟨"d", 99, 5⟩ (fun _ => none) "https://instagram.com/p/AB/"
        ⟨none, 200, "\"GraphImage\" x display_url\":\"http://u\""⟩ ⟨200, 9, none⟩ []).1.error =
      some ("File too large (" ++ fmtMB 9 ++ "MB)") ∧
    fsLookup (InstagramDownloader.download ⟨"d", 99, 5⟩ (fun _ => none)
        "https://instagram.com/p/AB/"
        ⟨none, 200, "\"GraphImage\" x display_url\":\"http://u\""⟩ ⟨200, 9, none⟩ []).2
      (("d" : String) ++ "/" ++
        (if (PyJson.bool false).truthy then "instagram_" ++ "AB" ++ ".mp4"
         else "instagram_" ++ "AB" ++ ".jpg")) = none :=
  (C1_failure_leaves_no_file ⟨"d", 99, 5⟩ (fun _ => none) "https://instagram.com/p/AB/"
      ⟨none, 200, "\"GraphImage\" x display_url\":\"http://u\""⟩ ⟨200, 9, none⟩ []).2
    "AB" (.str (pyReplace "http://u" "\\u0026" "&")) (.bool false) (.str "Instagram Photo")
    rfl rfl rfl (by decide)

/-- Claim C2: for every configuration, oracle, URL, environment and
filesystem, each platform downloader's result envelope is never partially
filled: success populates `file_path` and `media_type` and leaves `error`
empty, failure populates `error` and leaves `file_path` and `media_type`
empty. -/
theorem C2_envelope_never_partial (cfg : Config) (jsonOf : String → Option PyJson)
    (iurl purl : String) (tenv : TikTokEnv) (ipage : PageEnv) (ifr : FileResp)
    (penv : PinterestEnv) (pfr : FileResp) (fs : FS) :
    resultWellFormed (TikTokDownloader.download cfg jsonOf tenv fs).1 ∧
    resultWellFormed (InstagramDownloader.download cfg jsonOf iurl ipage ifr fs).1 ∧
    resultWellFormed (PinterestDownloader.download cfg purl penv pfr fs).1 :=
  ⟨tiktok_wf cfg jsonOf tenv fs, instagram_wf cfg jsonOf iurl ipage ifr fs,
    pinterest_wf cfg purl penv pfr fs⟩

/-- Witness for C2: the well-formed envelope at one concrete environment
per platform. -/
theorem C2_witness :
    resultWellFormed (TikTokDownloader.download ⟨"d", 9, 9⟩ (fun _ => none)
      ⟨none, "u", none, 200, "", ⟨200, 1, none⟩⟩ []).1 ∧
    resultWellFormed (InstagramDownloader.download ⟨"d", 9, 9⟩ (fun _ => none) "u"
      ⟨none, 200, ""⟩ ⟨200, 1, none⟩ []).1 ∧
    resultWellFormed (PinterestDownloader.download ⟨"d", 9, 9⟩ "u"
      ⟨none, "", none, 200, ""⟩ ⟨200, 1, none⟩ []).1 :=
  C2_envelope_never_partial ⟨"d", 9, 9⟩ (fun _ => none) "u" "u"
    ⟨none, "u", none, 200, "", ⟨200, 1, none⟩⟩ ⟨none, 200, ""⟩ ⟨200, 1, none⟩
    ⟨none, "", none, 200, ""⟩ ⟨200, 1, none⟩ []

/-- Claim C3: given a fetched TikTok page (video id extracted, HTTP 200, no
network exception), resolution returns the NotFound-class failure dicts when
the `SIGI_STATE` script tag is absent, when the item entry for the video id
is absent, or when both `downloadAddr` and `playAddr` are absent, and the
ParseError-class failure dict when the blob is not valid JSON; in each case
the (total) embedding returns an `err` result, so no exception escapes. -/
theorem C3_tiktok_resolver_failures (jsonOf : String → Option PyJson) (env : TikTokEnv)
    (vid : String)
    (hvid : TikTokDownloader.extract_video_id env.finalUrl = some vid)
    (hre : env.redirectExc = none) (hpe : env.pageExc = none)
    (hst : env.pageStatus = 200) :
    (extractSigi env.pageContent = none →
      TikTokDownloader.get_video_info jsonOf env = .err "Could not find video data in page") ∧
    (∀ blob, extractSigi env.pageContent = some blob → jsonOf blob = none →
      TikTokDownloader.get_video_info jsonOf env = .err "Failed to parse video data") ∧
    (∀ blob fields, extractSigi env.pageContent = some blob →
      jsonOf blob = some (.obj fields) →
      (jlookup fields "ItemModule" = none ∨
        ∃ m, jlookup fields "ItemModule" = some (.obj m) ∧ jlookup m vid = none) →
      TikTokDownloader.get_video_info jsonOf env = .err "Video data not found") ∧
    (∀ blob fields m v, extractSigi env.pageContent = some blob →
      jsonOf blob = some (.obj fields) →
      jlookup fields "ItemModule" = some (.obj m) → jlookup m vid = some (.obj v) →
      v ≠ [] →
      (jlookup v "video" = none ∨
        ∃ vo, jlookup v "video" = some (.obj vo) ∧ jlookup vo "downloadAddr" = none ∧
          jlookup vo "playAddr" = none) →
      TikTokDownloader.get_video_info jsonOf env =
        .err "Could not find video download URL") := by
  refine ⟨?_, ?_, ?_, ?_⟩
  · intro hsigi
    simp [TikTokDownloader.get_video_info, hre, hpe, hst, hvid, hsigi]
  · intro blob hsigi hjson
    simp [TikTokDownloader.get_video_info, hre, hpe, hst, hvid, hsigi, hjson]
  · intro blob fields hsigi hjson hdisj
    rcases hdisj with him | ⟨m, him, hmv⟩
    · simp [TikTokDownloader.get_video_info, hre, hpe, hst, hvid, hsigi, hjson,
        TikTokDownloader.parse_item, PyJson.getD, PyJson.getOpt, PyJson.truthy,
        bind, Except.bind, pure, Except.pure, him, jlookup]
    · simp [TikTokDownloader.get_video_info, hre, hpe, hst, hvid, hsigi, hjson,
        TikTokDownloader.parse_item, PyJson.getD, PyJson.getOpt, PyJson.truthy,
        bind, Except.bind, pure, Except.pure, him, hmv, jlookup]
  · intro blob fields m v hsigi hjson him hmv hv hdisj
    rcases v with _ | ⟨x, xs⟩
    · exact absurd rfl hv
    · rcases hdisj with hvo | ⟨vo, hvo, hda, hpa⟩
      · simp [TikTokDownloader.get_video_info, hre, hpe, hst, hvid, hsigi, hjson,
          TikTokDownloader.parse_item, PyJson.getD, PyJson.getOpt, PyJson.truthy,
          bind, Except.bind, pure, Except.pure, him, hmv, hvo, jlookup_nil]
      · simp [TikTokDownloader.get_video_info, hre, hpe, hst, hvid, hsigi, hjson,
          TikTokDownloader.parse_item, PyJson.getD, PyJson.getOpt, PyJson.truthy,
          bind, Except.bind, pure, Except.pure, him, hmv, hvo, hda, hpa, jlookup_nil]

/-- Witness for C3: a concrete page with no `SIGI_STATE` tag resolves to the
NotFound-class failure dict. -/
theorem C3_witness :
    TikTokDownloader.get_video_info (fun _ => none)
      ⟨none, "https://tiktok.com/@u/video/7", none, 200, "no sigi here", ⟨200, 1, none⟩⟩ =
      .err "Could not find video data in page" :=
  (C3_tiktok_resolver_failures (fun _ => none)
      ⟨none, "https://tiktok.com/@u/video/7", none, 200, "no sigi here", ⟨200, 1, none⟩⟩
      "7" rfl rfl rfl rfl).1 rfl

/-- Claim C4: given a fetched Instagram embed page (shortcode extracted,
HTTP 200, no network exception): when only the raw GraphVideo fallback
matches, resolution succeeds with `is_video = true` and the captured URL
with every `&` escape replaced by `&` and no such escape remaining;
when none of the three strategies match, the NotFound-class failure is
returned; and the ParseError-class failure is returned exactly when the
loader-call blob is present but is not valid JSON. -/
theorem C4_instagram_fallbacks (jsonOf : String → Option PyJson) (url : String)
    (env : PageEnv) (sc : String)
    (hsc : InstagramDownloader.extract_shortcode url = some sc)
    (hne : env.netExc = none) (hst : env.status = 200) :
    (∀ u, searchLoader env.content = none →
      searchTagged "\"GraphImage\"" "display_url\":\"" env.content = none →
      searchTagged "\"GraphVideo\"" "video_url\":\"" env.content = some u →
      InstagramDownloader.get_media_info jsonOf url env =
        .ok sc (PyJson.str (pyReplace u "\\u0026" "&")) (PyJson.bool true)
          (PyJson.str "Instagram Video") ∧
      ¬ ("\\u0026".data <:+: (pyReplace u "\\u0026" "&").data)) ∧
    (searchLoader env.content = none →
      searchTagged "\"GraphImage\"" "display_url\":\"" env.content = none →
      searchTagged "\"GraphVideo\"" "video_url\":\"" env.content = none →
      InstagramDownloader.get_media_info jsonOf url env =
        .err "Could not find media data in embed page") ∧
    (InstagramDownloader.get_media_info jsonOf url env = .err "Failed to parse media data" ↔
      ∃ blob, searchLoader env.content = some blob ∧ jsonOf blob = none) := by
  refine ⟨?_, ?_, ?_, ?_⟩
  · intro u hload hgi hgv
    exact ⟨by simp [InstagramDownloader.get_media_info, hsc, hne, hst, hload, hgi, hgv],
      no_u0026_in_unescaped u⟩
  · intro hload hgi hgv
    simp [InstagramDownloader.get_media_info, hsc, hne, hst, hload, hgi, hgv]
  · intro h
    cases hl : searchLoader env.content with
    | none =>
      cases hgi2 : searchTagged "\"GraphImage\"" "display_url\":\"" env.content with
      | some u =>
        rw [show InstagramDownloader.get_media_info jsonOf url env =
            .ok sc (PyJson.str (pyReplace u "\\u0026" "&")) (PyJson.bool false)
              (PyJson.str "Instagram Photo") by
          simp [InstagramDownloader.get_media_info, hsc, hne, hst, hl, hgi2]] at h
        exact absurd h (by simp)
      | none =>
        cases hgv2 : searchTagged "\"GraphVideo\"" "video_url\":\"" env.content with
        | some u =>
          rw [show InstagramDownloader.get_media_info jsonOf url env =
              .ok sc (PyJson.str (pyReplace u "\\u0026" "&")) (PyJson.bool true)
                (PyJson.str "Instagram Video") by
            simp [InstagramDownloader.get_media_info, hsc, hne, hst, hl, hgi2, hgv2]] at h
          exact absurd h (by simp)
        | none =>
          rw [show InstagramDownloader.get_media_info jsonOf url env =
              .err "Could not find media data in embed page" by
            simp [InstagramDownloader.get_media_info, hsc, hne, hst, hl, hgi2, hgv2]] at h
          exact absurd ((MediaInfo.err.injEq _ _).mp h) (by decide)
    | some blob =>
      cases hj : jsonOf blob with
      | none => exact ⟨blob, rfl, hj⟩
      | some data =>
        rw [show InstagramDownloader.get_media_info jsonOf url env =
            (match InstagramDownloader.parse_media sc data with
              | .ok mi => mi
              | .error e => .err ("Failed to get media info: " ++ PyExc.str e)) by
          simp [InstagramDownloader.get_media_info, hsc, hne, hst, hl, hj]] at h
        cases hp : InstagramDownloader.parse_media sc data with
        | error e =>
          rw [hp] at h
          simp only [] at h
          exact absurd ((MediaInfo.err.injEq _ _).mp h) (failed_info_ne_parse e.str)
        | ok mi =>
          rw [hp] at h
          simp only [] at h
          rcases parse_media_ok_shape sc data mi hp with ⟨a, b, c, rfl⟩ | rfl | rfl
          · exact absurd h (by simp)
          · exact absurd ((MediaInfo.err.injEq _ _).mp h) (by decide)
          · exact absurd ((MediaInfo.err.injEq _ _).mp h) (by decide)
  · rintro ⟨blob, hl, hj⟩
    simp [InstagramDownloader.get_media_info, hsc, hne, hst, hl, hj]

/-- Witness for C4: a concrete embed page matched only by the GraphVideo
fallback resolves to a video whose URL has its `&` escape replaced. -/
theorem C4_witness :
    InstagramDownloader.get_media_info (fun _ => none) "https://instagram.com/p/AB/"
        ⟨none, 200, "\"GraphVideo\" x video_url\":\"v\\u0026w\""⟩ =
      .ok "AB" (PyJson.str (pyReplace "v\\u0026w" "\\u0026" "&")) (PyJson.bool true)
        (PyJson.str "Instagram Video") ∧
    ¬ ("\\u0026".data <:+: (pyReplace "v\\u0026w" "\\u0026" "&").data) :=
  (C4_instagram_fallbacks (fun _ => none) "https://instagram.com/p/AB/"
      ⟨none, 200, "\"GraphVideo\" x video_url\":\"v\\u0026w\""⟩ "AB" rfl rfl rfl).1
    "v\\u0026w" rfl rfl rfl

/-- Counterexample to claim C5 as stated: the URL
`https://tiktok.com/x?from=youtube.com` contains TikTok's domain
`tiktok.com`, yet the classifier returns `youtube`, not `tiktok` — the
domain substring tests are not mutually exclusive, so "a URL containing a
platform's domain is classified as that platform" fails. -/
theorem C5_counterexample :
    strContains (pyLower "https://tiktok.com/x?from=youtube.com") "tiktok.com" = true ∧
    URLParser.extract_platform "https://tiktok.com/x?from=youtube.com" = some "youtube" ∧
    (some "youtube" : Option String) ≠ some "tiktok" := by
  refine ⟨by decide, by decide, by decide⟩

/-- Claim C5 (amended): the classifier returns the first platform, in the
fixed order youtube, tiktok, instagram, pinterest, one of whose domain
substrings occurs in the lowercased URL — so a URL containing the domains
of several platforms classifies as the earliest in the order — and returns
none exactly when no domain substring occurs. -/
theorem C5_amended_first_match_order (url : String) :
    (["youtube.com", "youtu.be"].any (fun d => strContains (pyLower url) d) = true →
      URLParser.extract_platform url = some "youtube") ∧
    (["tiktok.com", "vm.tiktok.com", "vt.tiktok.com"].any
        (fun d => strContains (pyLower url) d) = true →
     ["youtube.com", "youtu.be"].any (fun d => strContains (pyLower url) d) = false →
      URLParser.extract_platform url = some "tiktok") ∧
    (["instagram.com", "instagr.am"].any (fun d => strContains (pyLower url) d) = true →
     ["youtube.com", "youtu.be"].any (fun d => strContains (pyLower url) d) = false →
     ["tiktok.com", "vm.tiktok.com", "vt.tiktok.com"].any
        (fun d => strContains (pyLower url) d) = false →
      URLParser.extract_platform url = some "instagram") ∧
    (["pinterest.com", "pinterest.", "pin.it"].any
        (fun d => strContains (pyLower url) d) = true →
     ["youtube.com", "youtu.be"].any (fun d => strContains (pyLower url) d) = false →
     ["tiktok.com", "vm.tiktok.com", "vt.tiktok.com"].any
        (fun d => strContains (pyLower url) d) = false →
     ["instagram.com", "instagr.am"].any (fun d => strContains (pyLower url) d) = false →
      URLParser.extract_platform url = some "pinterest") ∧
    (URLParser.extract_platform url = none ↔
      (["youtube.com", "youtu.be"].any (fun d => strContains (pyLower url) d) = false ∧
       ["tiktok.com", "vm.tiktok.com", "vt.tiktok.com"].any
          (fun d => strContains (pyLower url) d) = false ∧
       ["instagram.com", "instagr.am"].any (fun d => strContains (pyLower url) d) = false ∧
       ["pinterest.com", "pinterest.", "pin.it"].any
          (fun d => strContains (pyLower url) d) = false)) := by
  unfold URLParser.extract_platform
  dsimp only
  by_cases h1 : ["youtube.com", "youtu.be"].any (fun d => strContains (pyLower url) d) = true <;>
    by_cases h2 : ["tiktok.com", "vm.tiktok.com", "vt.tiktok.com"].any
      (fun d => strContains (pyLower url) d) = true <;>
    by_cases h3 : ["instagram.com", "instagr.am"].any
      (fun d => strContains (pyLower url) d) = true <;>
    by_cases h4 : ["pinterest.com", "pinterest.", "pin.it"].any
      (fun d => strContains (pyLower url) d) = true <;>
    simp_all <;>
    (intros; simp_all)

/-- Witness for C5: a short-link TikTok URL classifies as tiktok. -/
theorem C5_witness :
    URLParser.extract_platform "https://vt.tiktok.com/ZS1/" = some "tiktok" :=
  (C5_amended_first_match_order "https://vt.tiktok.com/ZS1/").2.1 (by decide) (by decide)

/-- Counterexample to claim C6 as stated: on a pin page whose only media
reference is the `og:image` meta tag, resolution succeeds as a photo but
the title field is populated with the nonempty placeholder
`Pinterest Image` — not "no title". -/
theorem C6_counterexample :
    PinterestDownloader.get_pin_info
        ⟨none, "", none, 200,
          "<meta property=\"og:image\" content=\"https://i.pinimg.com/img.jpg\">"⟩
        "https://pinterest.com/pin/123/" =
      .ok "123" "https://i.pinimg.com/img.jpg" false "Pinterest Image" ∧
    ("Pinterest Image" : String) ≠ "" :=
  ⟨rfl, by decide⟩

/-- Claim C6 (amended): given a fetched pin page (no `pin.it` short link,
pin id extracted, HTTP 200, no network exception), resolution first scans
the inline script bodies (marker token, `"images"` gate, media-URL regex,
optional title) and returns that strategy's result when it yields a URL;
otherwise it falls back to the `og:image` meta tag, yielding a photo with
the fixed placeholder title `Pinterest Image`; the NotFound-class failure
is returned exactly when neither strategy yields a URL. -/
theorem C6_pinterest_strategies (env : PinterestEnv) (url : String) (pin : String)
    (hpinit : strContains url "pin.it" = false)
    (hpid : PinterestDownloader.extract_pin_id url = some pin)
    (hne : env.netExc = none) (hst : env.status = 200) :
    (∀ m v t, firstScriptHit (scanScripts env.content.data) = some (m, v, t) →
      PinterestDownloader.get_pin_info env url = .ok pin m v t) ∧
    (firstScriptHit (scanScripts env.content.data) = none →
      ∀ u, ogImage env.content.data = some u →
      PinterestDownloader.get_pin_info env url = .ok pin (String.mk u) false "Pinterest Image") ∧
    (PinterestDownloader.get_pin_info env url = .err "Could not find media data in Pinterest page" ↔
      (firstScriptHit (scanScripts env.content.data) = none ∧
        ogImage env.content.data = none)) := by
  refine ⟨?_, ?_, ?_, ?_⟩
  · intro m v t hhit
    simp [PinterestDownloader.get_pin_info, hpinit, hpid, hne, hst, hhit]
  · intro hhit u hog
    simp [PinterestDownloader.get_pin_info, hpinit, hpid, hne, hst, hhit, hog]
  · intro h
    cases hhit : firstScriptHit (scanScripts env.content.data) with
    | some r =>
      obtain ⟨m, v, t⟩ := r
      rw [show PinterestDownloader.get_pin_info env url = .ok pin m v t by
        simp [PinterestDownloader.get_pin_info, hpinit, hpid, hne, hst, hhit]] at h
      exact absurd h (by simp)
    | none =>
      cases hog : ogImage env.content.data with
      | some u =>
        rw [show PinterestDownloader.get_pin_info env url =
            .ok pin (String.mk u) false "Pinterest Image" by
          simp [PinterestDownloader.get_pin_info, hpinit, hpid, hne, hst, hhit, hog]] at h
        exact absurd h (by simp)
      | none => exact ⟨rfl, rfl⟩
  · rintro ⟨h1, h2⟩
    simp [PinterestDownloader.get_pin_info, hpinit, hpid, hne, hst, h1, h2]

set_option maxRecDepth 100000 in
/-- Witness for C6: a concrete pin page whose inline script carries the
marker, the `"images"` gate and a jpg URL resolves through the script
strategy. -/
theorem C6_witness :
    PinterestDownloader.get_pin_info
        ⟨none, "", none, 200,
          "<script>\"Pin\" \x7b\"images\": 1\x7d \"url\": \"https:\\/\\/i.pinimg.com\\/img.jpg\" \"title\": \"T\"</script>"⟩
        "https://pinterest.com/pin/99/" =
      .ok "99" "https://i.pinimg.com/img.jpg" false "T" :=
  (C6_pinterest_strategies
      ⟨none, "", none, 200,
        "<script>\"Pin\" \x7b\"images\": 1\x7d \"url\": \"https:\\/\\/i.pinimg.com\\/img.jpg\" \"title\": \"T\"</script>"⟩
      "https://pinterest.com/pin/99/" "99" rfl rfl rfl rfl).1
    "https://i.pinimg.com/img.jpg" false "T" rfl

/-- Claim C7: `normalize_url` strips the query string and fragment and
forces the https scheme: concretely `http://x/y?z=1#f` normalizes to
`https://x/y`, and for every URL the result starts with `https://` and
contains no `?` and no `#`. -/
theorem C7_normalize_strips_and_forces_https :
    URLParser.normalize_url "http://x/y?z=1#f" = "https://x/y" ∧
    ∀ url : String,
      "https://".data <+: (URLParser.normalize_url url).data ∧
      '?' ∉ (URLParser.normalize_url url).data ∧
      '#' ∉ (URLParser.normalize_url url).data := by
  refine ⟨by decide, ?_⟩
  intro url
  unfold URLParser.normalize_url
  dsimp only
  have hq1 : '?' ∉ url.data.takeWhile (fun c => c ≠ '?') := fun hm => by
    simpa using List.mem_takeWhile_imp hm
  have hq2 : '?' ∉ (url.data.takeWhile (fun c => c ≠ '?')).takeWhile (fun c => c ≠ '#') :=
    fun hm => hq1 ((List.takeWhile_prefix _).subset hm)
  have hh2 : '#' ∉ (url.data.takeWhile (fun c => c ≠ '?')).takeWhile (fun c => c ≠ '#') :=
    fun hm => by simpa using List.mem_takeWhile_imp hm
  split
  · refine ⟨List.prefix_append _ _, ?_, ?_⟩ <;>
      · intro hm
        rcases List.mem_append.mp hm with h | h
        · simp at h
        · exact absurd ((List.drop_subset _ _) h) (by assumption)
  · split
    · rename_i h2
      exact ⟨h2, hq2, hh2⟩
    · refine ⟨List.prefix_append _ _, ?_, ?_⟩ <;>
        · intro hm
          rcases List.mem_append.mp hm with h | h
          · simp at h
          · exact absurd h (by assumption)

/-- Claim C8: the shared truncation expression keeps strings of at most 100
characters unchanged and truncates longer strings to their first 100
characters plus an ellipsis; applied to a string-valued Python caption it
never raises and returns exactly the truncation (`truncate100` is the
expression used by both the Instagram caption and the Pinterest title). -/
theorem C8_truncation :
    (∀ s : String, 100 < s.data.length →
      truncate100 s = String.mk (s.data.take 100) ++ "...") ∧
    (∀ s : String, s.data.length ≤ 100 → truncate100 s = s) ∧
    (∀ s : String, pyTruncate (PyJson.str s) = .ok (.str (truncate100 s))) := by
  refine ⟨?_, ?_, ?_⟩
  · intro s h
    rw [truncate100, if_pos (by omega)]
  · intro s h
    rw [truncate100, if_neg (by omega)]
  · intro s
    unfold pyTruncate PyJson.pyLen
    dsimp only [bind, Except.bind]
    split
    · rfl
    · rename_i h
      rw [truncate100, if_neg (by omega)]
      rfl

/-- Witness for C8: a 101-character string is truncated with the ellipsis
appended, and a short string passes through unchanged. -/
theorem C8_witness :
    truncate100 (String.mk (List.replicate 101 'a')) =
      String.mk ((List.replicate 101 'a').take 100) ++ "..." ∧
    truncate100 "short caption" = "short caption" :=
  ⟨C8_truncation.1 _ (by simp), C8_truncation.2.1 _ (by decide)⟩

/-- Claim C9: whenever `download_file` fails (non-200 status or an exception
during the streamed write), the file at the target path
`download_dir/filename` is absent afterwards — for every prior filesystem,
so a file that already existed at that path before the call is removed
too. -/
theorem C9_download_file_error_removes_target
    (cfg : Config) (fs : FS) (resp : FileResp) (filename : String) (e : String) (fs' : FS)
    (h : BaseDownloader.download_file cfg fs resp filename = (.error e, fs')) :
    fsLookup fs' (cfg.DOWNLOAD_DIR ++ "/" ++ filename) = none := by
  unfold BaseDownloader.download_file at h
  dsimp only at h
  split at h
  · split at h
    · simp only [Prod.mk.injEq] at h
      obtain ⟨-, rfl⟩ := h
      simp [fsLookup_fsErase]
    · simp at h
  · simp only [Prod.mk.injEq] at h
    obtain ⟨-, rfl⟩ := h
    simp [fsLookup_fsErase]

/-- Witness for C9: a 404 response (which writes nothing) still removes the
file that already existed at the target path. -/
theorem C9_witness :
    fsLookup (fsErase [("d/f.mp4", 5)] "d/f.mp4") ("d" ++ "/" ++ "f.mp4") = none :=
  C9_download_file_error_removes_target ⟨"d", 10, 10⟩ [("d/f.mp4", 5)] ⟨404, 0, none⟩
    "f.mp4" "HTTP 404: Failed to download file" _ rfl

/-- Claim C10: after a successful write, the size check is a strict
greater-than comparison against the applicable ceiling: the TikTok download
succeeds exactly when the size is at most `MAX_VIDEO_SIZE`, and the
Instagram download succeeds exactly when the size is at most the
video/photo ceiling selected by `is_video` — so a file of exactly the
ceiling size is accepted. -/
theorem C10_size_check_is_strict :
    (∀ (cfg : Config) (jsonOf : String → Option PyJson) (tenv : TikTokEnv) (fs : FS)
       (vid : String) (durl ttl : PyJson),
      TikTokDownloader.get_video_info jsonOf tenv = .ok vid durl ttl →
      tenv.fileResp.status = 200 → tenv.fileResp.writeExc = none →
      ((TikTokDownloader.download cfg jsonOf tenv fs).1.success = true ↔
        tenv.fileResp.size ≤ cfg.MAX_VIDEO_SIZE)) ∧
    (∀ (cfg : Config) (jsonOf : String → Option PyJson) (url : String) (page : PageEnv)
       (fr : FileResp) (fs : FS) (mid : String) (murl iv cap : PyJson),
      InstagramDownloader.get_media_info jsonOf url page = .ok mid murl iv cap →
      fr.status = 200 → fr.writeExc = none →
      ((InstagramDownloader.download cfg jsonOf url page fr fs).1.success = true ↔
        fr.size ≤ (if iv.truthy then cfg.MAX_VIDEO_SIZE else cfg.MAX_PHOTO_SIZE))) := by
  constructor
  · intro cfg jsonOf tenv fs vid durl ttl h h200 hwe
    unfold TikTokDownloader.download
    rw [h]
    simp [BaseDownloader.download_file, h200, hwe, fsLookup_fsWrite_self]
    split <;> rename_i hcmp <;> simp <;> omega
  · intro cfg jsonOf url page fr fs mid murl iv cap h h200 hwe
    unfold InstagramDownloader.download
    rw [h]
    dsimp only
    by_cases hv : iv.truthy = true <;>
      simp [BaseDownloader.download_file, h200, hwe, fsLookup_fsWrite_self, hv] <;>
      split <;> rename_i hcmp <;> simp <;> omega

/-- Witness for C10: a 5-byte video against a 5-byte video ceiling — exactly
at the limit — is accepted. -/
theorem C10_witness :
    (TikTokDownloader.download ⟨"d", 5, 99⟩
        (fun _ => some (PyJson.obj [("ItemModule", PyJson.obj [("1", PyJson.obj
          [("video", PyJson.obj [("downloadAddr", PyJson.str "u")]),
           ("desc", PyJson.str "t")])])]))
        ⟨none, "/video/1", none, 200, "<script id=\"SIGI_STATE\">x</script>",
          ⟨200, 5, none⟩⟩ []).1.success = true :=
  (C10_size_check_is_strict.1 ⟨"d", 5, 99⟩
      (fun _ => some (PyJson.obj [("ItemModule", PyJson.obj [("1", PyJson.obj
        [("video", PyJson.obj [("downloadAddr", PyJson.str "u")]),
         ("desc", PyJson.str "t")])])]))
      ⟨none, "/video/1", none, 200, "<script id=\"SIGI_STATE\">x</script>",
        ⟨200, 5, none⟩⟩ [] "1" (PyJson.str "u") (PyJson.str "t")
      rfl rfl rfl).mpr (by decide)
